import Mathlib

/-!
A shallow embedding of `src/fabric/connection.py` (the `Connection` session
façade of the fabric library): host-shorthand parsing, gateway resolution
and chaining, lazy idempotent `open`, `close`, and the two scoped
port-forwarding operations together with their teardown and
exception-aggregation behaviour.
-/

namespace Fabric

/-! ## Exceptions and `forward_local` teardown (connection.py lines 609-633)

Python exceptions are modelled as a small inductive: `base i` stands for an
arbitrary non-aggregate exception (identified by a number), and
`threadException ws` stands for `invoke.exceptions.ThreadException`
carrying its list of wrapped causes. -/

inductive Exc where
  | base : Nat → Exc
  | threadException : List Exc → Exc

/-- `wrapper.type is ThreadException` test from connection.py line 630. -/
def isThreadException : Exc → Bool
  | .threadException _ => true
  | _ => false

/-- The raise decision of `forward_local` teardown (connection.py 628-633):
given `wrapper = manager.exception()`, raise nothing if it is `None`; raise
`wrapper.value` directly if its type is `ThreadException`; otherwise wrap
it as `ThreadException([wrapper])`. -/
def forwardLocalRaise (wrapper : Option Exc) : Option Exc :=
  match wrapper with
  | none => none
  | some w => if isThreadException w then some w else some (.threadException [w])

/-- The teardown steps of the `finally` block of `forward_local`
(connection.py 612-628), in source order. -/
inductive FLStep where
  | setFinished
  | joinManager
  | inspectWrapper
deriving DecidableEq

def forwardLocalTeardownSteps : List FLStep :=
  [FLStep.setFinished, FLStep.joinManager, FLStep.inspectWrapper]

/-- The full exit path of a `forward_local` scope (connection.py 609-633).
`userExc` is the exception (if any) raised by the user's code block inside
the `with`; `wrapper` is `manager.exception()`. Python `try`/`finally`
semantics: the `finally` suite always runs to completion first; if it
raises, that exception replaces the in-flight one; otherwise the in-flight
user exception (if any) resumes propagation. Returns the executed teardown
steps and the exception that propagates to the caller. -/
def forwardLocalExit (userExc : Option Exc) (wrapper : Option Exc) :
    List FLStep × Option Exc :=
  let raised := forwardLocalRaise wrapper
  (forwardLocalTeardownSteps,
    match raised with
    | some e => some e
    | none => userExc)

/-- Modelled from the spec: `TunnelManager.exception()` lives in
`fabric/tunnels.py`, which is not under `src/`. Spec section 4.2 states the
aggregation policy over the failures found "across manager + tunnels": one
failure is surfaced as-is, several are combined into a single aggregate
carrying all causes, zero surface nothing. This models the wrapper that
policy would hand back to `forward_local`. -/
def managerExceptionSpec (fails : List Exc) : Option Exc :=
  match fails with
  | [] => none
  | [e] => some e
  | es => some (.threadException es)

/-! ## The `forward_remote` inbound-connection callback (connection.py 709-719)

The callback receives an inbound `Channel`; it creates an outbound local
socket, connects it to `(local_host, local_port)`, then builds and starts a
`Tunnel` and appends it to the shared `tunnels` list. `connectError` is
`some e` when `sock.connect` raises exception `e` (e.g. connection
refused). The code has no handler around `sock.connect`, so on failure the
exception escapes the callback: the channel is not closed, nothing is
recorded, no tunnel is appended. -/

structure CallbackResult where
  tunnels : List Nat
  channelClosed : Bool
  recordedFailure : Option Nat
  escaped : Option Nat
deriving DecidableEq

def remoteCallback (connectError : Option Nat) (tunnelId : Nat)
    (tunnels : List Nat) : CallbackResult :=
  match connectError with
  | some e =>
      { tunnels := tunnels
        channelClosed := false
        recordedFailure := none
        escaped := some e }
  | none =>
      { tunnels := tunnels ++ [tunnelId]
        channelClosed := false
        recordedFailure := none
        escaped := none }

/-! ## The `forward_remote` scope trace (connection.py 723-742) -/

inductive REv where
  | request : String → Nat → REv
  | stopTunnel : Nat → REv
  | joinTunnel : Nat → REv
  | cancel : String → Nat → REv
deriving DecidableEq

def isCancel : REv → Bool
  | .cancel _ _ => true
  | _ => false

/-- The events of one `forward_remote` scope, given the ids of the tunnels
the callback created during the scope: `request_port_forward` on entry,
then on exit (the `finally` suite) `tunnel.finished.set()` and
`tunnel.join()` for each tracked tunnel in order, and finally
`cancel_port_forward` with the same address/port pair. -/
def forwardRemoteTeardown (tunnelIds : List Nat) : List REv :=
  (tunnelIds.map fun i => [REv.stopTunnel i, REv.joinTunnel i]).flatten

def forwardRemoteTrace (remoteHost : String) (remotePort : Nat)
    (tunnelIds : List Nat) : List REv :=
  REv.request remoteHost remotePort ::
    (forwardRemoteTeardown tunnelIds ++ [REv.cancel remoteHost remotePort])

/-! ## Gateway values and session objects (connection.py 261-277, 384-446)

A `Conn` models a `Connection` object: a numeric identity (standing for the
Python object identity, used to key the connected-state map), the resolved
host, the resolved port, and the gateway value stored by `__init__`. The
gateway is four-way, exactly as the code accepts it: `None`, an explicit
falsy override such as `False`, a proxy-command string, or another
`Connection` (ProxyJump). -/

mutual
inductive Gw where
  | noGw : Gw
  | falseOverride : Gw
  | cmd : String → Gw
  | jump : Conn → Gw

inductive Conn where
  | mk : Nat → String → Nat → Gw → Conn
end

def Conn.id : Conn → Nat
  | .mk i _ _ _ => i

def Conn.host : Conn → String
  | .mk _ h _ _ => h

def Conn.port : Conn → Nat
  | .mk _ _ p _ => p

def Conn.gateway : Conn → Gw
  | .mk _ _ _ g => g

/-- Connected-state update: mark connection id `i` as connected. -/
def updateConnected (σ : Nat → Bool) (i : Nat) : Nat → Bool :=
  fun j => if j = i then true else σ j

/-! ## Proxy-command placeholder expansion (connection.py 419-427)

`open_gateway` builds a dummy SSH config text `"Host {host}\n    ProxyCommand
{command}"`, parses it, and constructs a `ProxyCommand` from the looked-up,
token-expanded `proxycommand` value. The dummy config carries the session's
host but no `Port` directive.

`sshConfigExpandProxyCommand` models the external collaborator
`paramiko.config.SSHConfig` lookup expansion for the `proxycommand` key: it
replaces `%h` with the config's hostname and `%p` with the config's port,
falling back to the default SSH port 22 when the config has no port entry
(paramiko's `SSH_PORT` default). Replacement is Python `str.replace`:
left-to-right, non-overlapping, all occurrences. -/

def replaceGo (pat repl : List Char) : List Char → Nat → List Char
  | [], _ => []
  | _ :: rest, skip + 1 => replaceGo pat repl rest skip
  | c :: rest, 0 =>
      if pat ≠ [] ∧ (c :: rest).take pat.length = pat then
        repl ++ replaceGo pat repl rest (pat.length - 1)
      else
        c :: replaceGo pat repl rest 0

def replaceAll (pat repl l : List Char) : List Char :=
  replaceGo pat repl l 0

def strReplace (s pat repl : String) : String :=
  String.mk (replaceAll pat.toList repl.toList s.toList)

def sshConfigExpandProxyCommand (hostname : String) (port : Option Nat)
    (command : String) : String :=
  strReplace (strReplace command "%h" hostname) "%p"
    (match port with
     | some p => toString p
     | none => "22")

/-- The command string handed to `ProxyCommand` by `open_gateway`: the
lookup expands against the dummy config, which holds the session's host and
no port, so `%p` falls back to the default. Note the session's own port
never reaches the expansion. -/
def openGatewaySpawnedCommand (host : String) (gatewayCommand : String) :
    String :=
  sshConfigExpandProxyCommand host none gatewayCommand

/-! ## `open` and `open_gateway` (connection.py 377-446)

`openConn` runs over a connected-state map `σ` (by connection id) and emits
the trace of externally visible events: channel requests against a gateway
connection's transport, proxy-process spawns, and the `SSHClient.connect`
call (with the socket-like object handed to it, if any). Python truthiness
of `self.gateway` in `open` (line 404): `None` and `False` are falsy, and
so is an empty command string; a `Connection` is always truthy. -/

inductive SockLike where
  | channel : Nat → String × Nat → String × Nat → SockLike
  | proxy : String → SockLike
deriving DecidableEq

inductive Ev where
  | openChannel : Nat → String × Nat → String × Nat → Ev
  | spawnProxy : String → Ev
  | connect : String → Nat → Option SockLike → Ev
  | execCommand : String → Ev
  | openSftp : Ev
  | localForwardScope : Nat → Nat → Ev
  | remoteForwardScope : Nat → Nat → Ev
deriving DecidableEq

def openConn : Conn → (Nat → Bool) → (Nat → Bool) × List Ev
  | .mk i h p gw, σ =>
    if σ i then (σ, [])
    else
      match gw with
      | .jump g =>
          let r := openConn g σ
          (updateConnected r.1 i,
            r.2 ++
              [Ev.openChannel g.id (h, p) ("", 0),
               Ev.connect h p (some (SockLike.channel g.id (h, p) ("", 0)))])
      | .cmd s =>
          if s = "" then
            (updateConnected σ i, [Ev.connect h p none])
          else
            let e := openGatewaySpawnedCommand h s
            (updateConnected σ i,
              [Ev.spawnProxy e, Ev.connect h p (some (SockLike.proxy e))])
      | _ => (updateConnected σ i, [Ev.connect h p none])

/-! ## The `opens` decorator (connection.py 21-24, 465, 472, 511, 547, 641)

`run`, `sftp`, `forward_local` and `forward_remote` are wrapped in
`@opens`, which calls `self.open()` before the method body. -/

def runOp (c : Conn) (σ : Nat → Bool) (command : String) :
    (Nat → Bool) × List Ev :=
  let r := openConn c σ
  (r.1, r.2 ++ [Ev.execCommand command])

def sftpOp (c : Conn) (σ : Nat → Bool) : (Nat → Bool) × List Ev :=
  let r := openConn c σ
  (r.1, r.2 ++ [Ev.openSftp])

def forwardLocalOp (c : Conn) (σ : Nat → Bool) (localPort remotePort : Nat) :
    (Nat → Bool) × List Ev :=
  let r := openConn c σ
  (r.1, r.2 ++ [Ev.localForwardScope localPort remotePort])

def forwardRemoteOp (c : Conn) (σ : Nat → Bool) (remotePort localPort : Nat) :
    (Nat → Bool) × List Ev :=
  let r := openConn c σ
  (r.1, r.2 ++ [Ev.remoteForwardScope remotePort localPort])

/-! ## Gateway resolution in `__init__` (connection.py 261-277)

A non-`None` argument — a string, a `Connection`, or even `False` — is
stored directly; `None` triggers the configured lookup: an ssh_config
`proxyjump` wins (and is handed to the `Connection` constructor as a host
shorthand), then an ssh_config `proxycommand` string, then the Invoke-level
`config.gateway` value. `mkConn` abstracts the recursive `Connection(...)`
constructor applied to the proxyjump string. -/

def resolveGateway (mkConn : String → Conn) (arg : Option Gw)
    (sshProxyJump : Option String) (sshProxyCommand : Option String)
    (configGateway : Gw) : Gw :=
  match arg with
  | some g => g
  | none =>
      match sshProxyJump with
      | some pj => Gw.jump (mkConn pj)
      | none =>
          match sshProxyCommand with
          | some pc => Gw.cmd pc
          | none => configGateway

/-! ## `is_connected` and `close` (connection.py 377-382, 448-457)

`transport` is `none` before any transport handle was captured, and
`some a` afterwards, with `a` the handle's `active` flag (`is_connected`
returns `self.transport.active if self.transport else False`).
`agentHandler` is `none` if no `AgentRequestHandler` was ever created and
`some closed` otherwise, with `closed` recording whether it has been
closed. -/

structure SessionState where
  transport : Option Bool
  forwardAgent : Bool
  agentHandler : Option Bool
deriving DecidableEq

def is_connected (s : SessionState) : Bool :=
  match s.transport with
  | some a => a
  | none => false

inductive CloseEv where
  | clientClose
  | agentClose
deriving DecidableEq

/-- `close` (connection.py 448-457): if connected, `self.client.close()`
(which deactivates the transport), and then, only when `self.forward_agent`
is set and an agent handler was created, close that handler too; otherwise
do nothing. -/
def close (s : SessionState) : SessionState × List CloseEv :=
  if is_connected s then
    let s₁ : SessionState := { s with transport := some false }
    if s.forwardAgent && s.agentHandler.isSome then
      ({ s₁ with agentHandler := some true }, [CloseEv.clientClose, CloseEv.agentClose])
    else
      (s₁, [CloseEv.clientClose])
  else
    (s, [])

/-! ## `derive_shorthand` (connection.py 355-375)

Python `host_string.rsplit('@', 1)` splits at the last `'@'`;
`rsplitLast` returns the part before that separator (`none` if the
separator is absent) and the part after it. -/

def rsplitLast (sep : Char) (s : String) : Option String × String :=
  let sp := s.toList.reverse.span (fun c => c ≠ sep)
  match sp.2 with
  | [] => (none, s)
  | _ :: beforeRev => (some (String.mk beforeRev.reverse), String.mk sp.1.reverse)

structure Shorthand where
  user : Option String
  host : Option String
  port : Option Nat
deriving DecidableEq

/-- Python `int(...)` on a decimal digit string (the only shape the port
shorthand can legally carry). `none` models the `ValueError` raised on a
non-numeric string. -/
def pyInt (s : String) : Option Nat :=
  let l := s.toList
  if l ≠ [] ∧ l.all Char.isDigit then
    some (l.foldl (fun a c => a * 10 + (c.toNat - 48)) 0)
  else
    none

/-- `derive_shorthand` (connection.py 355-375). An empty user / host / port
substring is normalised to `None` (Python truthiness of `''`). With more
than one `':'` in the host-port part (IPv6), no port derivation is
attempted. `int(port)` on a non-numeric port string raises `ValueError` in
Python; the model surfaces that as an overall `none` via `pyInt`. -/
def derive_shorthand (host_string : String) : Option Shorthand :=
  let (before, hostport) := rsplitLast '@' host_string
  let user : Option String :=
    match before with
    | some u => if u = "" then none else some u
    | none => none
  let (host, portStr) :=
    if hostport.toList.count ':' > 1 then
      ((if hostport = "" then none else some hostport), (none : Option String))
    else
      match rsplitLast ':' hostport with
      | (none, whole) => ((if whole = "" then none else some whole), none)
      | (some h, p) =>
          ((if h = "" then none else some h), if p = "" then none else some p)
  match portStr with
  | none => some ⟨user, host, none⟩
  | some ps =>
      match pyInt ps with
      | some n => some ⟨user, host, some n⟩
      | none => none

/-! ## The user/port conflict checks of `__init__` (connection.py 231-241)

`__init__` derives the shorthand first and raises `ValueError` — before any
connection attribute is assigned — if the user (checked first) or the port
is supplied both via shorthand and via its own keyword argument; otherwise
a shorthand-supplied value fills in for a missing argument. On success the
model returns the resolved `(user, port, host)` triple that the rest of
`__init__` proceeds with. -/

inductive InitErr where
  | userConflict
  | portConflict
  | badPort
deriving DecidableEq

def initShorthand (host_string : String) (user : Option String)
    (port : Option Nat) : Except InitErr (Option String × Option Nat × Option String) :=
  match derive_shorthand host_string with
  | none => .error .badPort
  | some sh =>
      match sh.user, user with
      | some _, some _ => .error .userConflict
      | _, _ =>
          let user' := match sh.user with
            | some u => some u
            | none => user
          match sh.port, port with
          | some _, some _ => .error .portConflict
          | _, _ =>
              let port' := match sh.port with
                | some p => some p
                | none => port
              .ok (user', port', sh.host)

/-! ## Helper lemmas -/

/-- Every branch of `openConn` leaves the session itself marked connected. -/
theorem openConn_marks_connected (c : Conn) (σ : Nat → Bool) :
    (openConn c σ).1 c.id = true := by
  obtain ⟨i, h, p, gw⟩ := c
  cases gw with
  | jump g =>
      by_cases hσ : σ i <;> simp [openConn, hσ, Conn.id, updateConnected]
  | cmd s =>
      by_cases hσ : σ i
      · simp [openConn, hσ, Conn.id]
      · by_cases hs : s = "" <;>
          simp [openConn, hσ, hs, Conn.id, updateConnected]
  | noGw =>
      by_cases hσ : σ i <;> simp [openConn, hσ, Conn.id, updateConnected]
  | falseOverride =>
      by_cases hσ : σ i <;> simp [openConn, hσ, Conn.id, updateConnected]

/-- If the session is not yet connected, opening it emits a `connect` event
for its own host and port (whatever the gateway shape). -/
theorem openConn_emits_connect (i : Nat) (h : String) (p : Nat) (gw : Gw)
    (σ : Nat → Bool) (hσ : σ i = false) :
    ∃ s, Ev.connect h p s ∈ (openConn (Conn.mk i h p gw) σ).2 := by
  cases gw with
  | jump g =>
      exact ⟨some (SockLike.channel g.id (h, p) ("", 0)), by
        simp [openConn, hσ]⟩
  | cmd s =>
      by_cases hs : s = ""
      · exact ⟨none, by simp [openConn, hσ, hs]⟩
      · exact ⟨some (SockLike.proxy (openGatewaySpawnedCommand h s)), by
          simp [openConn, hσ, hs]⟩
  | noGw => exact ⟨none, by simp [openConn, hσ]⟩
  | falseOverride => exact ⟨none, by simp [openConn, hσ]⟩

/-- Opening an already-connected session does nothing: no events, no state
change (connection.py line 398 guards the whole body). -/
theorem openConn_noop (c : Conn) (σ : Nat → Bool) (hσ : σ c.id = true) :
    openConn c σ = (σ, []) := by
  obtain ⟨i, h, p, gw⟩ := c
  simp only [Conn.id] at hσ
  cases gw <;> simp [openConn, hσ]

/-! ## Claims -/

/-- C1: the claim states that when the user's block raises and teardown also
finds worker failures, the user's original exception propagates, taking
precedence over the worker aggregate. Counterexample: user exception
`base 0` in flight, manager wrapper `base 1` — the teardown's `raise`
replaces the in-flight exception, so `ThreadException [base 1]` propagates,
not `base 0`. -/
theorem forward_local_user_exc_precedence_cex :
    (forwardLocalExit (some (Exc.base 0)) (some (Exc.base 1))).2
        = some (Exc.threadException [Exc.base 1]) ∧
      (forwardLocalExit (some (Exc.base 0)) (some (Exc.base 1))).2
        ≠ some (Exc.base 0) := by
  refine ⟨rfl, ?_⟩
  intro hcontra
  rw [show (forwardLocalExit (some (Exc.base 0)) (some (Exc.base 1))).2
        = some (Exc.threadException [Exc.base 1]) from rfl] at hcontra
  exact Exc.noConfusion (Option.some.inj hcontra)

/-- C1 (amended): on the user-exception path the teardown (signal shutdown,
join the manager, inspect the wrapper) still runs to completion; if the
teardown finds no worker failure the user's original exception propagates,
but if it finds one, the raised worker aggregate supersedes the user's
exception as the exception propagated to the caller. -/
theorem forward_local_teardown_completes_and_aggregate_supersedes
    (u w : Exc) :
    (forwardLocalExit (some u) (some w)).1 = forwardLocalTeardownSteps ∧
      (forwardLocalExit (some u) none).1 = forwardLocalTeardownSteps ∧
      (forwardLocalExit (some u) none).2 = some u ∧
      (forwardLocalExit (some u) (some w)).2
        = some (if isThreadException w then w else Exc.threadException [w]) := by
  refine ⟨rfl, rfl, rfl, ?_⟩
  by_cases hw : isThreadException w <;>
    simp [forwardLocalExit, forwardLocalRaise, hw]

/-- C2: the claim says a failed outbound connect still closes the inbound
channel and records the failure. Evaluating the callback at the failing
input (outbound connect raises error `7`): the exception escapes the
handler, the channel is left unclosed, nothing is recorded and no tunnel is
tracked — the code's own TODO (connection.py line 711) acknowledges the
missing handling. -/
theorem forward_remote_callback_connect_failure_leaks_channel :
    remoteCallback (some 7) 0 []
        = { tunnels := []
            channelClosed := false
            recordedFailure := none
            escaped := some 7 } ∧
      (remoteCallback (some 7) 0 []).channelClosed = false ∧
      (remoteCallback (some 7) 0 []).recordedFailure = none :=
  ⟨rfl, rfl, rfl⟩

/-- C3: the claim says `ProxyCommand("nc %h %p")` on a session with host
`example.com` and port `2222` spawns exactly `nc example.com 2222`.
Evaluating the code: the dummy SSH config built by `open_gateway` carries
the host but no `Port` directive, so the lookup's `%p` expansion falls back
to the default port `22` — the session's own port never reaches the
expansion — and the spawned command is `nc example.com 22`. -/
theorem open_gateway_proxy_command_port_not_substituted :
    openGatewaySpawnedCommand "example.com" "nc %h %p" = "nc example.com 22" ∧
      openGatewaySpawnedCommand "example.com" "nc %h %p" ≠ "nc example.com 2222" ∧
      (openConn (Conn.mk 0 "example.com" 2222 (Gw.cmd "nc %h %p"))
          (fun _ => false)).2
        = [Ev.spawnProxy "nc example.com 22",
           Ev.connect "example.com" 2222
             (some (SockLike.proxy "nc example.com 22"))] ∧
      (∀ p q : Nat,
        (openConn (Conn.mk 0 "example.com" p (Gw.cmd "nc %h %p"))
            (fun _ => false)).2.head?
          = (openConn (Conn.mk 0 "example.com" q (Gw.cmd "nc %h %p"))
              (fun _ => false)).2.head?) := by
  refine ⟨by decide, by decide, by decide, ?_⟩
  intro p q
  rfl

/-- C4: the claim states that exactly one worker failure is re-raised
as-is, unwrapped. Counterexample: a single failure `base 0` across manager
and tunnels — the teardown raises `ThreadException [base 0]`, a one-cause
aggregate, not the original `base 0` unwrapped. -/
theorem forward_local_single_failure_not_unwrapped_cex :
    forwardLocalRaise (managerExceptionSpec [Exc.base 0])
        = some (Exc.threadException [Exc.base 0]) ∧
      forwardLocalRaise (managerExceptionSpec [Exc.base 0])
        ≠ some (Exc.base 0) := by
  refine ⟨rfl, ?_⟩
  intro hcontra
  rw [show forwardLocalRaise (managerExceptionSpec [Exc.base 0])
        = some (Exc.threadException [Exc.base 0]) from rfl] at hcontra
  exact Exc.noConfusion (Option.some.inj hcontra)

/-- C4 (amended): zero failures raise nothing; any non-`None` manager
wrapper always surfaces as a single `ThreadException` aggregate — a wrapper
that already is a `ThreadException` (built by the manager on behalf of its
tunnels) is raised directly, and any other failure, the exactly-one case
included, is wrapped into a fresh one-cause `ThreadException`; it is never
re-raised unwrapped. -/
theorem forward_local_any_failure_raises_aggregate (w : Exc) :
    forwardLocalRaise none = none ∧
      forwardLocalRaise (managerExceptionSpec []) = none ∧
      (∀ e, forwardLocalRaise (some w) = some e → isThreadException e = true) ∧
      forwardLocalRaise (some w)
        = some (if isThreadException w then w else Exc.threadException [w]) := by
  refine ⟨rfl, rfl, ?_, ?_⟩
  · intro e he
    by_cases hw : isThreadException w
    · simp only [forwardLocalRaise, hw, if_true, Option.some.injEq] at he
      subst he
      exact hw
    · simp only [forwardLocalRaise, hw, Bool.false_eq_true, if_false,
        Option.some.injEq] at he
      subst he
      rfl
  · by_cases hw : isThreadException w <;> simp [forwardLocalRaise, hw]

/-- C4 witness: applying the amended theorem at `w = base 3` shows the
surfaced exception is an aggregate. -/
theorem forward_local_any_failure_raises_aggregate_witness :
    isThreadException (Exc.threadException [Exc.base 3]) = true :=
  (forward_local_any_failure_raises_aggregate (Exc.base 3)).2.2.1
    (Exc.threadException [Exc.base 3]) rfl

/-- C5: opening a session whose gateway is another session first opens the
nested session (idempotently), then requests exactly one `direct-tcpip`
channel from the nested session's transport with destination address
`(this host, int(this port))` and the empty source address `("", 0)`, and
hands exactly that channel as the socket to this session's own connect
call. -/
theorem open_gateway_proxyjump_channel (i : Nat) (h : String) (p : Nat)
    (g : Conn) (σ : Nat → Bool) (hσ : σ i = false) :
    openConn (Conn.mk i h p (Gw.jump g)) σ
        = (updateConnected (openConn g σ).1 i,
           (openConn g σ).2 ++
             [Ev.openChannel g.id (h, p) ("", 0),
              Ev.connect h p (some (SockLike.channel g.id (h, p) ("", 0)))]) ∧
      (openConn g σ).1 g.id = true := by
  exact ⟨by simp [openConn, hσ], openConn_marks_connected g σ⟩

/-- C5 witness: a two-hop chain at concrete hosts/ports. -/
theorem open_gateway_proxyjump_channel_witness :
    openConn (Conn.mk 0 "a.example" 22
          (Gw.jump (Conn.mk 1 "b.example" 2345 Gw.noGw))) (fun _ => false)
        = (updateConnected
             (openConn (Conn.mk 1 "b.example" 2345 Gw.noGw) (fun _ => false)).1 0,
           (openConn (Conn.mk 1 "b.example" 2345 Gw.noGw) (fun _ => false)).2 ++
             [Ev.openChannel 1 ("a.example", 22) ("", 0),
              Ev.connect "a.example" 22
                (some (SockLike.channel 1 ("a.example", 22) ("", 0)))]) ∧
      (openConn (Conn.mk 1 "b.example" 2345 Gw.noGw) (fun _ => false)).1 1 = true :=
  open_gateway_proxyjump_channel 0 "a.example" 22
    (Conn.mk 1 "b.example" 2345 Gw.noGw) (fun _ => false) rfl

/-- C6: `open()` is idempotent — on an already-connected session it
performs no underlying connect (and changes nothing), and a second `open`
right after a first one emits no events; and `run`, `sftp`,
`forward_local`, `forward_remote` (all wrapped in `@opens`) each trigger
the connect automatically when the session is not yet connected. -/
theorem open_idempotent_and_ops_trigger_open (c : Conn) (σ : Nat → Bool)
    (command : String) (lp rp : Nat) :
    (σ c.id = true → openConn c σ = (σ, [])) ∧
      openConn c (openConn c σ).1 = ((openConn c σ).1, []) ∧
      (σ c.id = false →
        (∃ s, Ev.connect c.host c.port s ∈ (runOp c σ command).2) ∧
          (∃ s, Ev.connect c.host c.port s ∈ (sftpOp c σ).2) ∧
          (∃ s, Ev.connect c.host c.port s ∈ (forwardLocalOp c σ lp rp).2) ∧
          (∃ s, Ev.connect c.host c.port s ∈ (forwardRemoteOp c σ rp lp).2)) := by
  refine ⟨fun hσ => openConn_noop c σ hσ,
    openConn_noop c (openConn c σ).1 (openConn_marks_connected c σ), ?_⟩
  intro hσ
  obtain ⟨i, h, p, gw⟩ := c
  simp only [Conn.id] at hσ
  obtain ⟨s, hs⟩ := openConn_emits_connect i h p gw σ hσ
  refine ⟨⟨s, ?_⟩, ⟨s, ?_⟩, ⟨s, ?_⟩, ⟨s, ?_⟩⟩ <;>
    simp only [runOp, sftpOp, forwardLocalOp, forwardRemoteOp, Conn.host,
      Conn.port] <;>
    exact List.mem_append_left _ hs

/-- C6 witness: with the session already connected a second `open` does
nothing, and on an unconnected session `run` emits the connect. -/
theorem open_idempotent_and_ops_trigger_open_witness :
    openConn (Conn.mk 0 "web1" 22 Gw.noGw) (fun _ => true) = ((fun _ => true), []) ∧
      (∃ s, Ev.connect "web1" 22 s ∈
        (runOp (Conn.mk 0 "web1" 22 Gw.noGw) (fun _ => false) "uptime").2) :=
  ⟨(open_idempotent_and_ops_trigger_open (Conn.mk 0 "web1" 22 Gw.noGw)
      (fun _ => true) "uptime" 1 2).1 rfl,
   ((open_idempotent_and_ops_trigger_open (Conn.mk 0 "web1" 22 Gw.noGw)
      (fun _ => false) "uptime" 1 2).2.2 rfl).1⟩

/-- C7: on `forward_remote` scope exit, every tunnel created during the
scope has its `finished` event set and is joined, and only after all of
them — as the very last event — is `cancel_port_forward` called, exactly
once, with the same `(address, port)` pair that was registered. -/
theorem forward_remote_teardown_cancels_once (rh : String) (rp : Nat)
    (ids : List Nat) :
    forwardRemoteTrace rh rp ids
        = REv.request rh rp :: (forwardRemoteTeardown ids ++ [REv.cancel rh rp]) ∧
      (forwardRemoteTrace rh rp ids).countP (fun e => isCancel e) = 1 ∧
      (∀ e ∈ forwardRemoteTeardown ids, isCancel e = false) ∧
      (∀ i ∈ ids, REv.stopTunnel i ∈ forwardRemoteTeardown ids ∧
        REv.joinTunnel i ∈ forwardRemoteTeardown ids) := by
  have h3 : ∀ e ∈ forwardRemoteTeardown ids, isCancel e = false := by
    intro e he
    simp only [forwardRemoteTeardown, List.mem_flatten, List.mem_map] at he
    obtain ⟨l, ⟨i, hi, rfl⟩, hel⟩ := he
    simp only [List.mem_cons, List.mem_singleton, List.not_mem_nil,
      or_false] at hel
    rcases hel with rfl | rfl <;> rfl
  refine ⟨rfl, ?_, h3, ?_⟩
  · have h0 : (forwardRemoteTeardown ids).countP (fun e => isCancel e) = 0 :=
      List.countP_eq_zero.mpr (fun e he => by simp [h3 e he])
    simp only [forwardRemoteTrace, List.countP_cons, List.countP_append, h0]
    rfl
  · intro i hi
    constructor <;>
      · simp only [forwardRemoteTeardown, List.mem_flatten]
        exact ⟨[REv.stopTunnel i, REv.joinTunnel i],
          List.mem_map_of_mem _ hi, by simp⟩

/-- C7 witness: scope on `("127.0.0.1", 8080)` with tunnels 1 and 2. -/
theorem forward_remote_teardown_cancels_once_witness :
    (forwardRemoteTrace "127.0.0.1" 8080 [1, 2]).countP (fun e => isCancel e) = 1 ∧
      REv.stopTunnel 1 ∈ forwardRemoteTeardown [1, 2] :=
  ⟨(forward_remote_teardown_cancels_once "127.0.0.1" 8080 [1, 2]).2.1,
   ((forward_remote_teardown_cancels_once "127.0.0.1" 8080 [1, 2]).2.2.2 1
      (by decide)).1⟩

/-- C8: the gateway configuration is four-way. An absent (`None`) argument
seeks the configured value — ssh_config `proxyjump` (handed to the
`Connection` constructor) first, then ssh_config `proxycommand`, then the
config's own gateway; an explicit falsy override is stored as given and at
open time suppresses any gateway (the connect is made with no socket
handed in); a command string or another session object is used directly. -/
theorem gateway_four_way_configuration (mkConn : String → Conn)
    (pj pc : String) (mpc : Option String) (cfg : Gw) (g : Gw) (i : Nat)
    (h : String) (p : Nat) (σ : Nat → Bool) (hσ : σ i = false) :
    resolveGateway mkConn none (some pj) mpc cfg = Gw.jump (mkConn pj) ∧
      resolveGateway mkConn none none (some pc) cfg = Gw.cmd pc ∧
      resolveGateway mkConn none none none cfg = cfg ∧
      resolveGateway mkConn (some g) (some pj) mpc cfg = g ∧
      openConn (Conn.mk i h p Gw.falseOverride) σ
        = (updateConnected σ i, [Ev.connect h p none]) := by
  refine ⟨rfl, rfl, rfl, rfl, ?_⟩
  simp [openConn, hσ]

/-- C8 witness: concrete settings; the override connection connects with
no gateway socket. -/
theorem gateway_four_way_configuration_witness :
    resolveGateway (fun s => Conn.mk 9 s 22 Gw.noGw) none (some "jumphost")
        (some "nc %h %p") Gw.noGw = Gw.jump (Conn.mk 9 "jumphost" 22 Gw.noGw) ∧
      openConn (Conn.mk 0 "web1" 22 Gw.falseOverride) (fun _ => false)
        = (updateConnected (fun _ => false) 0, [Ev.connect "web1" 22 none]) :=
  ⟨(gateway_four_way_configuration (fun s => Conn.mk 9 s 22 Gw.noGw)
      "jumphost" "x" (some "nc %h %p") Gw.noGw Gw.noGw 0 "web1" 22
      (fun _ => false) rfl).1,
   (gateway_four_way_configuration (fun s => Conn.mk 9 s 22 Gw.noGw)
      "jumphost" "x" (some "nc %h %p") Gw.noGw Gw.noGw 0 "web1" 22
      (fun _ => false) rfl).2.2.2.2⟩

/-- C9: `close` on a session that is not connected does nothing and leaves
the state unchanged; `close` is idempotent (a second call right after a
first is a no-op); and on a connected session the agent handler is closed
exactly when agent forwarding is enabled and a handler was created. -/
theorem close_noop_idempotent_agent (s : SessionState) :
    (is_connected s = false → close s = (s, [])) ∧
      close (close s).1 = ((close s).1, []) ∧
      (is_connected s = true →
        (CloseEv.agentClose ∈ (close s).2
          ↔ s.forwardAgent = true ∧ s.agentHandler.isSome = true)) := by
  obtain ⟨t, fa, ah⟩ := s
  cases t with
  | none => exact ⟨fun _ => rfl, rfl, fun hc => by simp [is_connected] at hc⟩
  | some a =>
      cases a with
      | false => exact ⟨fun _ => rfl, rfl, fun hc => by simp [is_connected] at hc⟩
      | true =>
          refine ⟨fun hnc => by simp [is_connected] at hnc, ?_, fun _ => ?_⟩
          · cases fa <;> cases ah <;> rfl
          · cases fa <;> cases ah <;> simp [close, is_connected]

/-- C9 witness: an unopened session's `close` is a no-op; a connected
session with agent forwarding and a live handler closes it. -/
theorem close_noop_idempotent_agent_witness :
    close ⟨none, false, none⟩ = (⟨none, false, none⟩, []) ∧
      CloseEv.agentClose ∈ (close ⟨some true, true, some false⟩).2 :=
  ⟨(close_noop_idempotent_agent ⟨none, false, none⟩).1 rfl,
   ((close_noop_idempotent_agent ⟨some true, true, some false⟩).2.2 rfl).mpr
     ⟨rfl, rfl⟩⟩

/-- C10: `__init__` refuses a user supplied both via `user@host` shorthand
and the `user` kwarg (checked first), and a port supplied both via
`host:port` shorthand and the `port` kwarg, raising `ValueError` before any
connection attribute is set (the model's error return carries no resolved
attributes); with a single source the supplied value is the one used. -/
theorem init_refuses_double_user_port (hs : String) (u : Option String)
    (p : Option Nat) (sh : Shorthand)
    (hsh : derive_shorthand hs = some sh) :
    (sh.user.isSome = true ∧ u.isSome = true →
        initShorthand hs u p = .error .userConflict) ∧
      ((sh.user.isSome = true ∧ u.isSome = true → False) →
        sh.port.isSome = true ∧ p.isSome = true →
        initShorthand hs u p = .error .portConflict) ∧
      ((sh.user.isSome = true ∧ u.isSome = true → False) →
        (sh.port.isSome = true ∧ p.isSome = true → False) →
        initShorthand hs u p
          = .ok (match sh.user with
                 | some x => some x
                 | none => u,
                 match sh.port with
                 | some x => some x
                 | none => p,
                 sh.host)) := by
  obtain ⟨su, sho, sp⟩ := sh
  cases su <;> cases u <;> cases sp <;> cases p <;>
    simp [initShorthand, hsh]

/-- C10 witness: `admin@web1:2202` with a conflicting `user` kwarg errors;
with no kwargs the shorthand values are the ones used. -/
theorem init_refuses_double_user_port_witness :
    initShorthand "admin@web1:2202" (some "x") none
        = .error .userConflict ∧
      initShorthand "admin@web1:2202" none none
        = .ok (some "admin", some 2202, some "web1") :=
  ⟨(init_refuses_double_user_port "admin@web1:2202" (some "x") none
      ⟨some "admin", some "web1", some 2202⟩ (by decide)).1 ⟨rfl, rfl⟩,
   (init_refuses_double_user_port "admin@web1:2202" none none
      ⟨some "admin", some "web1", some 2202⟩ (by decide)).2.2
      (fun hcon => by simpa using hcon.2) (fun hcon => by simpa using hcon.2)⟩

end Fabric
